import Mathlib

/-!
Verification of the libarc1 control driver against its design specification.

The development shallowly embeds the parts of the code base the claims talk
about: the Param/Field wire codec (`params.py`), the handshake
(`ArC1.initialise` in `arc.py`), the read-voltage update (`ArC1.update_Vread`),
the module execution engine (`ArC1._wrap_op`, `ArC1.finish_op`,
`ArC1.run_module`, `ArC1._module_from_arg`), the sequence runner
(`ArC1._wrap_sequence`, `sequence.py`), the generic triplet runner
(`libarc1/__init__.py`) and the form-finder default-configuration interaction
(`modules/formfinder.py`).  Bytes are modelled as `List Char` (the wire text is
ASCII), machine floats as exact rationals, and Python exceptions as an explicit
error type.
-/

set_option autoImplicit false

namespace LibArc1

/-! ## Wire codec (`libarc1/params.py`)

`SimpleParam.__bytes__` is `(b"%s\n" % identifier.encode()) % self.value`,
i.e. the printf pattern `identifier ++ "\n"` applied to the wrapped value.
`ListParam.__bytes__` is `b''.join([(b'%s\n' % identifier) % item for item in value])`.
The concrete field classes bind `identifier`: `Integer`/`IntegerList` use
`'%d'`, `Float` uses `'%f'`, `String` uses `'%s'`.
-/

/-- Result of the C/Python format directive `%d` followed by a newline applied
to an integer: decimal text plus `'\n'`. -/
def pyFmtIntLine (i : ℤ) : List Char :=
  (toString i).data ++ ['\n']

/-- Round a rational to the nearest integer, ties to even — the rounding the
`%f` directive applies to the (exact) value of a double. -/
def roundHalfEven (x : ℚ) : ℤ :=
  let f : ℤ := ⌊x⌋
  let r : ℚ := x - (f : ℚ)
  if r < 1/2 then f
  else if 1/2 < r then f + 1
  else if f % 2 = 0 then f else f + 1

/-- Decimal digits of a natural number. -/
def natDigits (n : ℕ) : List Char :=
  (toString n).data

/-- Pad a digit string on the left with zeros up to width `w`. -/
def padZeros (w : ℕ) (s : List Char) : List Char :=
  List.replicate (w - s.length) '0' ++ s

/-- Result of the format directive `%f` followed by a newline applied to a
float (embedded as its exact rational value): fixed-point text with six
fractional digits, plus `'\n'`. -/
def pyFmtFloatLine (q : ℚ) : List Char :=
  let sign : List Char := if q < 0 then ['-'] else []
  let m : ℕ := (roundHalfEven (|q| * 1000000)).toNat
  sign ++ natDigits (m / 1000000) ++ ['.'] ++ padZeros 6 (natDigits (m % 1000000)) ++ ['\n']

/-- Result of the format directive `%s` followed by a newline applied to a
byte string: the raw bytes plus `'\n'`. -/
def pyFmtTextLine (s : List Char) : List Char :=
  s ++ ['\n']

/-- Encoding of an `Integer` field (`SimpleParam` with identifier `'%d'`). -/
def Integer_bytes (i : ℤ) : List Char :=
  pyFmtIntLine i

/-- Encoding of a `Float` field (`SimpleParam` with identifier `'%f'`). -/
def Float_bytes (q : ℚ) : List Char :=
  pyFmtFloatLine q

/-- Encoding of a `String` field (`SimpleParam` with identifier `'%s'`). -/
def String_bytes (s : List Char) : List Char :=
  pyFmtTextLine s

/-- Encoding of an `IntegerList` field (`ListParam` with identifier `'%d'`):
`b''.join` of the per-item `b'%d\n' % item` lines. -/
def IntegerList_bytes (l : List ℤ) : List Char :=
  (l.map pyFmtIntLine).flatten

/-- A wire field: one of the four concrete `Param` classes used by the packet
layer. -/
inductive Field where
  | integer (i : ℤ)
  | float (q : ℚ)
  | text (s : List Char)
  | integerList (l : List ℤ)
  deriving DecidableEq

/-- The `__bytes__` conversion of a field. -/
def Field.encode : Field → List Char
  | .integer i => Integer_bytes i
  | .float q => Float_bytes q
  | .text s => String_bytes s
  | .integerList l => IntegerList_bytes l

/-! ## Execution engine (`ArC1._wrap_op`, `ArC1.finish_op`, `arc.py`)

The engine state that matters to the claims is `self._operation`: either
`None` or the handle of the running worker thread, identified here by its
name (`threading.Thread(..., name=mod.name)`).  The worker body of
`_wrap_op` is

```
def wrapper():
    mod.sink(json.dumps({... 'status': 0, 'devs': devs, 'conf': conf}))
    mod(devs, conf)
    self.finish_op()
    mod.sink(json.dumps({... 'status': 1}))
    mod.sink(None)
```

with no exception handling: if `mod(devs, conf)` raises, the thread dies
before `finish_op` and before the two final pushes.  A module body is
embedded as the list of items it pushes to the sink plus whether it returns
normally or raises.  The worker is embedded as the trace of its primitive
actions: pushes into the FIFO buffer and the handle-clearing `finish_op`.
-/

/-- Python exceptions the embedded code can raise. -/
inductive PyExn where
  | connectionError
  | valueError
  | nameError
  | attributeError
  | operationInProgress (name : String)
  deriving DecidableEq

/-- The static identity of a module class: its `name` and `tag` attributes. -/
structure ModDesc where
  name : String
  tag : String
  deriving DecidableEq

/-- An item delivered to the sink: a begin status envelope (`'status': 0`,
with the devices and configuration), an end status envelope (`'status': 1`),
a raw result datum pushed by the module body, or the terminal sentinel
(`None`). -/
inductive SinkItem (α : Type) where
  | beginMod (name tag : String) (devs : List (ℤ × ℤ)) (conf : ℕ)
  | endMod (name tag : String)
  | datum (d : α)
  | sentinel
  deriving DecidableEq

/-- A primitive action of the worker: push an item into the FIFO buffer, or
clear the Operation handle (`finish_op`, which sets `self._operation = None`). -/
inductive EngAct (α : Type) where
  | push (i : SinkItem α)
  | clearHandle
  deriving DecidableEq

/-- Whether a module body returns normally or raises. -/
inductive Outcome where
  | ok
  | raises
  deriving DecidableEq

/-- Behaviour of one invocation of a module body `mod(devs, conf)`: the data
it pushes to the sink, in order, and how it exits. -/
structure ModBody (α : Type) where
  pushed : List α
  outcome : Outcome

/-- Trace of the `wrapper` closure of `_wrap_op`: begin envelope, the body's
pushes, then — only if the body returns normally — `finish_op`, the end
envelope and the sentinel.  A raising body ends the thread right after its
last push. -/
def wrapOpTrace {α : Type} (m : ModDesc) (devs : List (ℤ × ℤ)) (conf : ℕ)
    (body : ModBody α) : List (EngAct α) :=
  EngAct.push (SinkItem.beginMod m.name m.tag devs conf) ::
    (body.pushed.map (fun d => EngAct.push (SinkItem.datum d)) ++
      match body.outcome with
      | .ok => [EngAct.clearHandle,
                EngAct.push (SinkItem.endMod m.name m.tag),
                EngAct.push SinkItem.sentinel]
      | .raises => [])

/-- Engine state: the Operation handle (`self._operation`), either `none` or
the name of the active worker thread.  That the handle is an `Option` is the
data-model invariant that zero or one Operation exists at any time. -/
structure Engine where
  operation : Option String
  deriving DecidableEq

/-- The Operation handle left behind once the worker thread has run to its
end: cleared by `finish_op` on the normal path, never cleared if the body
raised. -/
def postOperation {α : Type} (m : ModDesc) (body : ModBody α) : Option String :=
  match body.outcome with
  | .ok => none
  | .raises => some m.name

/-- Embedding of `_wrap_op`: if an Operation handle exists the call raises
`OperationInProgress(self._operation.name)` and changes nothing; otherwise it
installs the handle and starts the worker, whose completed execution is the
trace `wrapOpTrace`, leaving the handle state `postOperation`. -/
def wrap_op {α : Type} (e : Engine) (m : ModDesc) (devs : List (ℤ × ℤ)) (conf : ℕ)
    (body : ModBody α) : Except PyExn (List (EngAct α)) × Engine :=
  match e.operation with
  | some n => (.error (PyExn.operationInProgress n), e)
  | none => (.ok (wrapOpTrace m devs conf body), ⟨postOperation m body⟩)

/-- The event stream a consumer sees: the pushes of a trace, in order. -/
def traceStream {α : Type} (tr : List (EngAct α)) : List (SinkItem α) :=
  tr.filterMap (fun a =>
    match a with
    | .push i => some i
    | .clearHandle => none)

/-- Number of sentinels in a stream. -/
def sentinelCount {α : Type} : List (SinkItem α) → ℕ
  | [] => 0
  | SinkItem.sentinel :: rest => sentinelCount rest + 1
  | _ :: rest => sentinelCount rest

/-- A trace in which the Operation handle is cleared strictly before a
sentinel is pushed. -/
def clearedBeforeSentinel {α : Type} (tr : List (EngAct α)) : Prop :=
  ∃ l1 l2 l3, tr = l1 ++ EngAct.clearHandle :: l2 ++ EngAct.push SinkItem.sentinel :: l3

/-! ## Module resolution (`ArC1._module_from_arg`, `ArC1.run_module`)

The source of `_module_from_arg` is

```
if inspect.isclass(arg) and issubclass(arg, modules.Module):
    mod = arg(self, sink)
elif isinstance(target, str):
    mod = self.modules[arg](self)
else:
    raise ValueError("Unrecognised module type: %s" % type(target))
```

The function has no binding for `target` (its parameter is `arg`, and no
global `target` exists in `arc.py`), so as soon as the first condition is
false, evaluating the guard `isinstance(target, str)` raises `NameError`
before any registry lookup or `ValueError` can happen.
-/

/-- The argument passed to `run_module` / `_module_from_arg`: a class that
subclasses `modules.Module`, some other class, a string tag, or any other
object. -/
inductive ModArg where
  | moduleClass (m : ModDesc)
  | otherClass
  | str (tag : String)
  | other
  deriving DecidableEq

/-- Embedding of `_module_from_arg`.  `registry` is `self.modules`, the
tag-to-class mapping; the code can never reach it, because every branch after
the first evaluates the unbound name `target`. -/
def module_from_arg (_registry : List (String × ModDesc)) (arg : ModArg) :
    Except PyExn ModDesc :=
  match arg with
  | .moduleClass m => .ok m
  | _ => .error PyExn.nameError

/-- Embedding of `run_module target devs conf`: resolve the module through
`_module_from_arg`, then hand it to `_wrap_op`.  A resolution failure
propagates to the caller before any engine state is touched. -/
def run_module {α : Type} (e : Engine) (registry : List (String × ModDesc))
    (arg : ModArg) (devs : List (ℤ × ℤ)) (conf : ℕ) (body : ModBody α) :
    Except PyExn (List (EngAct α)) × Engine :=
  match module_from_arg registry arg with
  | .error ex => (.error ex, e)
  | .ok m => wrap_op e m devs conf body

/-! ## Sequence runner (`sequence.py`, `ArC1._wrap_sequence`)

`Sequence.__init__` stores only `_name`, `_mods` and `_devs`; the class
additionally defines `name`, `devs`, `add_module`, `add_device`, `iterdevs`
and `itermods`.  The very first statement of `_wrap_sequence` is
`if sequence.sink is None:`; a `Sequence` instance has no attribute `sink`,
so this lookup raises `AttributeError` unconditionally, on the caller's
thread, before the exclusivity check, before any worker thread is started and
before any event is pushed.  (`run_sequence(self, sequence, sink=None)` takes
a `sink` argument but never passes it on.)  Everything from the exclusivity
check to the sentinel push in `_wrap_sequence` is therefore unreachable.
-/

/-- A `Sequence`: ordered (module, configuration) pairs over an ordered device
list. -/
structure Sequence where
  name : String
  mods : List (ModDesc × ℕ)
  devs : List (ℤ × ℤ)

/-- Looking up the attribute `sink` on a `Sequence` instance: the class
defines no such attribute, so the lookup raises `AttributeError` for every
instance. -/
def Sequence.getattr_sink (_ : Sequence) : PyExn :=
  PyExn.attributeError

/-- Embedding of `run_sequence` / `_wrap_sequence`: the initial
`sequence.sink` attribute access raises, so the call returns that exception
with the engine untouched and an empty event stream. -/
def run_sequence (e : Engine) (s : Sequence) :
    Except PyExn (List (EngAct Unit)) × Engine :=
  (.error s.getattr_sink, e)

/-! ## Generic triplet runner (`libarc1/__init__.py`)

```
def generic_triplet_runner(instr, pkt, devs, sink):
    instr.write_packet(pkt)
    for (word, bit) in devs:
        dev_pkt = DEVICE(word, bit)
        instr.write_packet(dev_pkt)
        while True:
            (res, voltage, pw) = instr.read_floats(3)
            if not (int(res) <= 0):
                sink((word, bit, res, voltage, pw))
            else:
                break
```

Inbound floats are embedded as exact rationals; `int(res)` is Python's float
truncation toward zero.
-/

/-- Python `int()` applied to a float value: truncation toward zero. -/
def pyIntTrunc (q : ℚ) : ℤ :=
  if 0 ≤ q then ⌊q⌋ else ⌈q⌉

/-- One inbound result tuple `(res, voltage, pw)`. -/
abbrev Triplet : Type := ℚ × ℚ × ℚ

/-- One record delivered to the sink: `(word, bit, res, voltage, pw)`. -/
abbrev TripletRec : Type := ℤ × ℤ × ℚ × ℚ × ℚ

/-- The inner `while True` loop for one device: read tuples off the inbound
stream; a tuple with `int(res) <= 0` ends the loop without being delivered,
any other tuple is delivered.  Returns the delivered records and the
remaining inbound stream, or `none` if the stream runs dry (the real code
would block in `read_floats`). -/
def deviceReadLoop (word bit : ℤ) : List Triplet → Option (List TripletRec × List Triplet)
  | [] => none
  | (t : ℚ × ℚ × ℚ) :: rest =>
      if ¬ (pyIntTrunc t.1 ≤ 0) then
        match deviceReadLoop word bit rest with
        | none => none
        | some (recs, rem) => some ((word, bit, t.1, t.2.1, t.2.2) :: recs, rem)
      else
        some ([], rest)

/-- The device loop of `generic_triplet_runner`: for each device in the
caller-supplied order, run the read loop on what is left of the inbound
stream.  Returns all delivered records in order. -/
def generic_triplet_runner (devs : List (ℤ × ℤ)) (inbound : List Triplet) :
    Option (List TripletRec) :=
  match devs with
  | [] => some []
  | (w, b) :: ds =>
      match deviceReadLoop w b inbound with
      | none => none
      | some (recs, rem) =>
          match generic_triplet_runner ds rem with
          | none => none
          | some more => some (recs ++ more)

/-! ## Handshake (`ArC1.initialise`, `arc.py` lines 381-419)

```
self._port = serial.Serial(...)
self.reset()                                  # writes b"00\n", sleeps 2 s
self.write_packet(INIT(self._config))
try:
    confirmation = int(self.read_line())
    if confirmation == 1:
        self.write_packet(INIT_ACK(self._config.read_mode, self._config.Vread))
    else:
        raise ConnectionError("Invalid confirmation")
except serial.SerialException as se:
    raise ConnectionError(se)
```

Only `serial.SerialException` is converted to `ConnectionError`; the
`ValueError` that `int()` raises on a non-integer line propagates unchanged.
No failure path closes the serial port (`self._port.close()` is only called
at the top when re-initialising, and in `close()`).  The firmware-version
probe that follows the handshake swallows all of its own exceptions and is
outside the claims.
-/

/-- ASCII whitespace stripped by Python's `int()` conversion. -/
def pyIsSpace (c : Char) : Bool :=
  c = ' ' || c = '\n' || c = '\r' || c = '\t' || c = '\x0b' || c = '\x0c'

/-- Decimal digit value, if the character is a digit. -/
def digitVal (c : Char) : Option ℕ :=
  if '0' ≤ c ∧ c ≤ '9' then some (c.toNat - '0'.toNat) else none

/-- Accumulate the digits of an integer literal after its first digit; a
single underscore is allowed between two digits. -/
def parseDigitsAux (acc : ℕ) : List Char → Option ℕ
  | [] => some acc
  | '_' :: c :: rest =>
      match digitVal c with
      | some d => parseDigitsAux (acc * 10 + d) rest
      | none => none
  | c :: rest =>
      match digitVal c with
      | some d => parseDigitsAux (acc * 10 + d) rest
      | none => none

/-- Parse a non-empty run of decimal digits (with optional underscore
grouping) as a natural number. -/
def parseDigits : List Char → Option ℕ
  | [] => none
  | c :: rest =>
      match digitVal c with
      | some d => parseDigitsAux d rest
      | none => none

/-- Python's `int()` applied to a line of text: strip ASCII whitespace on both
ends, then an optional sign followed by digits.  `none` models the
`ValueError` raised on any other input. -/
def pyParseInt (s : List Char) : Option ℤ :=
  let t := ((s.dropWhile pyIsSpace).reverse.dropWhile pyIsSpace).reverse
  match t with
  | '+' :: rest => (parseDigits rest).map (fun n => (n : ℤ))
  | '-' :: rest => (parseDigits rest).map (fun n => -(n : ℤ))
  | _ => (parseDigits t).map (fun n => (n : ℤ))

/-- Outbound traffic of the handshake, at packet granularity. -/
inductive HandshakePkt where
  | reset
  | INIT
  | INIT_ACK
  deriving DecidableEq

/-- What the transport yields for the confirmation read: a line of text, or a
`serial.SerialException`. -/
inductive LineIn where
  | line (s : List Char)
  | ioError
  deriving DecidableEq

/-- Outcome of `initialise`: the packets written after the port was opened,
the exception it raises (if any), and whether the serial port object is still
open when it returns or raises. -/
structure InitResult where
  written : List HandshakePkt
  outcome : Except PyExn Unit
  portOpen : Bool

/-- Embedding of `ArC1.initialise`, driven by what the confirmation
`read_line()` produces. -/
def initialise (input : LineIn) : InitResult :=
  match input with
  | .ioError =>
      { written := [.reset, .INIT], outcome := .error PyExn.connectionError,
        portOpen := true }
  | .line s =>
      match pyParseInt s with
      | none =>
          { written := [.reset, .INIT], outcome := .error PyExn.valueError,
            portOpen := true }
      | some v =>
          if v = 1 then
            { written := [.reset, .INIT, .INIT_ACK], outcome := .ok (),
              portOpen := true }
          else
            { written := [.reset, .INIT], outcome := .error PyExn.connectionError,
              portOpen := true }

/-! ## Read-voltage update (`ArC1.update_Vread`, `arc.py` lines 306-326)

```
if np.abs(val) > 12.0:
    raise ValueError("Vread out of bounds -12 < V < 12")
if val < 0.0 and self._config.read_mode == READ_MODE.TIA4P:
    read_mode = READ_MODE.TIA4P_NEG
elif val > 0.0 and self._config.read_mode == READ_MODE.TIA4P_NEG:
    read_mode = READ_MODE.TIA4P
else:
    read_mode = self._config.read_mode
self.write_packet(SET_VREAD(val, read_mode))
self._config.Vread = val
self._config.read_mode = read_mode
```
-/

/-- Read mode for read-out operations (`READ_MODE` in `arc.py`). -/
inductive READ_MODE where
  | CLASSIC
  | TIA
  | TIA4P
  | TIA4P_NEG
  deriving DecidableEq

/-- The slice of `ArC1Conf` that `update_Vread` touches: the read-out voltage
and the read mode.  The remaining configuration fields are never read or
written by the embedded operations. -/
structure ArC1Conf where
  read_mode : READ_MODE
  Vread : ℚ
  deriving DecidableEq

/-- The read mode chosen by the `if`/`elif`/`else` ladder of `update_Vread`. -/
def nextReadMode (c : ArC1Conf) (val : ℚ) : READ_MODE :=
  if val < 0 ∧ c.read_mode = READ_MODE.TIA4P then READ_MODE.TIA4P_NEG
  else if 0 < val ∧ c.read_mode = READ_MODE.TIA4P_NEG then READ_MODE.TIA4P
  else c.read_mode

/-- Errors `update_Vread` can raise: the bounds `ValueError`, or a failure of
the `SET_VREAD` packet write (a transport error in `write_packet`). -/
inductive VreadError where
  | valueError
  | writeError
  deriving DecidableEq

/-- Embedding of `update_Vread`: given the current configuration, the
requested voltage and whether the packet write succeeds, return the raised
exception (if any), the configuration afterwards, and the `SET_VREAD`
payloads actually delivered.  Both assignments to `self._config` come after
`write_packet`, so a failed write leaves the configuration untouched. -/
def update_Vread (c : ArC1Conf) (val : ℚ) (writeOk : Bool) :
    Option VreadError × ArC1Conf × List (ℚ × READ_MODE) :=
  if 12 < |val| then (some VreadError.valueError, c, [])
  else
    let m := nextReadMode c val
    if writeOk then
      (none, { read_mode := m, Vread := val }, [(val, m)])
    else
      (some VreadError.writeError, c, [])

/-! ## Form-finder default configuration (`modules/formfinder.py`)

`RampGenerator.run` aliases the class-level dictionary
(`ff_conf = FormFinder.default_config`) and assigns into it item by item, so
the assignments mutate `FormFinder.default_config` itself for the rest of the
process.  `FormFinder.run(self, devs, conf=default_config)` and the
`conf = mod.default_config` fallback in `run_module` both resolve to that
same dictionary object afterwards.
-/

/-- The keys of `FormFinder.default_config`, as a record. -/
structure FFConf where
  mode : ℕ
  PWnum : ℤ
  Vmin : ℚ
  Vstep : ℚ
  Vmax : ℚ
  PWmin : ℚ
  PWstep : ℚ
  PWmax : ℚ
  PWinter : ℚ
  Rthr : ℚ
  RthrP : ℚ
  pSR : ℕ
  deriving DecidableEq

/-- The documented initial value of `FormFinder.default_config`
(`FF_PWMode.LOG10 = 0`, `SERIES_RES.R0 = 7`). -/
def FormFinder_default_config_init : FFConf :=
  { mode := 0, PWnum := 1, Vmin := 1/4, Vstep := 1/4, Vmax := 3,
    PWmin := 100/1000000, PWstep := 100, PWmax := 1/1000, PWinter := 10/1000,
    Rthr := 1000000, RthrP := 0, pSR := 7 }

/-- The keys of `RampGenerator.default_config`, as a record. -/
structure RMPConf where
  PWnum : ℤ
  Vmin : ℚ
  Vstep : ℚ
  Vmax : ℚ
  PW : ℚ
  interpulse : ℚ
  pSR : ℕ
  deriving DecidableEq

/-- The value of `RampGenerator.default_config`. -/
def RampGenerator_default_config : RMPConf :=
  { PWnum := 1, Vmin := 1, Vstep := 1/4, Vmax := 1, PW := 100/1000000,
    interpulse := 10/1000, pSR := 7 }

/-- Process-wide mutable state relevant to the form-finder claims: the object
currently stored behind the class attribute `FormFinder.default_config`. -/
structure ProcState where
  ffDefault : FFConf
  deriving DecidableEq

/-- The process state at import time. -/
def initProcState : ProcState :=
  { ffDefault := FormFinder_default_config_init }

/-- The item assignments `ff_conf[...] = ...` of `RampGenerator.run`, applied
to the dictionary object aliased by `ff_conf`. -/
def rampGeneratorAssign (ff : FFConf) (conf : RMPConf) : FFConf :=
  { ff with
    PWnum := conf.PWnum, Vmin := conf.Vmin, Vstep := conf.Vstep,
    Vmax := conf.Vmax, PWmin := conf.PW, PWmax := conf.PW,
    PWinter := conf.interpulse, PWstep := 100, Rthr := 1, RthrP := 0,
    pSR := conf.pSR }

/-- Embedding of `RampGenerator.run`: because `ff_conf` aliases
`FormFinder.default_config`, the assignments update the process state; the
mutated dictionary is also the configuration the generated `FF_PKT` uses.
Returns the new process state and that configuration. -/
def RampGenerator_run (st : ProcState) (conf : RMPConf) : ProcState × FFConf :=
  let ff := rampGeneratorAssign st.ffDefault conf
  ({ st with ffDefault := ff }, ff)

/-- The configuration a `FormFinder` run resolves when the caller passes no
explicit configuration: the current object behind
`FormFinder.default_config`. -/
def FormFinder_fallback_config (st : ProcState) : FFConf :=
  st.ffDefault

/-! ## Helper lemmas -/

/-- Pushed items pass through the stream projection. -/
theorem traceStream_cons_push {α : Type} (i : SinkItem α) (tr : List (EngAct α)) :
    traceStream (EngAct.push i :: tr) = i :: traceStream tr := rfl

/-- The stream projection distributes over concatenation of traces. -/
theorem traceStream_append {α : Type} (t1 t2 : List (EngAct α)) :
    traceStream (t1 ++ t2) = traceStream t1 ++ traceStream t2 := by
  simp [traceStream]

/-- The stream of a trace of pure data pushes. -/
theorem traceStream_map_push_datum {α : Type} (p : List α) :
    traceStream (p.map (fun d => EngAct.push (SinkItem.datum d))) =
      p.map SinkItem.datum := by
  induction p with
  | nil => rfl
  | cons a as ih => simp only [List.map_cons, traceStream_cons_push, ih]

/-- Stream shape of a normally-returning worker. -/
theorem traceStream_wrapOpTrace_ok {α : Type} (m : ModDesc) (devs : List (ℤ × ℤ))
    (conf : ℕ) (p : List α) :
    traceStream (wrapOpTrace m devs conf ⟨p, Outcome.ok⟩) =
      SinkItem.beginMod m.name m.tag devs conf ::
        (p.map SinkItem.datum ++
          [SinkItem.endMod m.name m.tag, SinkItem.sentinel]) := by
  have h : wrapOpTrace m devs conf ⟨p, Outcome.ok⟩ =
      EngAct.push (SinkItem.beginMod m.name m.tag devs conf) ::
        (p.map (fun d => EngAct.push (SinkItem.datum d)) ++
          [EngAct.clearHandle, EngAct.push (SinkItem.endMod m.name m.tag),
           EngAct.push SinkItem.sentinel]) := rfl
  rw [h, traceStream_cons_push, traceStream_append, traceStream_map_push_datum]
  rfl

/-- Stream shape of a worker whose module body raised. -/
theorem traceStream_wrapOpTrace_raises {α : Type} (m : ModDesc) (devs : List (ℤ × ℤ))
    (conf : ℕ) (p : List α) :
    traceStream (wrapOpTrace m devs conf ⟨p, Outcome.raises⟩) =
      SinkItem.beginMod m.name m.tag devs conf :: p.map SinkItem.datum := by
  have h : wrapOpTrace m devs conf ⟨p, Outcome.raises⟩ =
      EngAct.push (SinkItem.beginMod m.name m.tag devs conf) ::
        (p.map (fun d => EngAct.push (SinkItem.datum d)) ++ []) := rfl
  rw [h, traceStream_cons_push, traceStream_append, traceStream_map_push_datum]
  simp [traceStream]

/-- Sentinel counting distributes over concatenation. -/
theorem sentinelCount_append {α : Type} (l1 l2 : List (SinkItem α)) :
    sentinelCount (l1 ++ l2) = sentinelCount l1 + sentinelCount l2 := by
  induction l1 with
  | nil => simp [sentinelCount]
  | cons a l ih =>
      cases a <;> simp [sentinelCount, ih]
      omega

/-- Sentinels are never among the mapped data items of a stream. -/
theorem sentinelCount_map_datum {α : Type} (p : List α) :
    sentinelCount (p.map SinkItem.datum) = 0 := by
  induction p with
  | nil => rfl
  | cons a as ih => simpa [sentinelCount] using ih

/-! ## Claim theorems -/

/-- C7: field encoding is pure and deterministic — encoding the same field
value twice yields identical byte strings — and the encoding of an
`IntegerList` is the in-order concatenation of the encodings of its elements
as individual `Integer` fields. -/
theorem codec_deterministic_integerList_concat :
    (∀ f : Field, f.encode = f.encode) ∧
    (∀ l : List ℤ, IntegerList_bytes l = (l.map Integer_bytes).flatten) :=
  ⟨fun _ => rfl, fun _ => rfl⟩

/-- C8 counterexample: the `IntegerList` field holding the empty list encodes
to zero bytes (`b''.join` over no items), contradicting the claim that no
field encodes to zero bytes. -/
theorem integerList_nil_encodes_empty :
    (Field.integerList []).encode = [] := rfl

/-- C8 (amended): every `Integer`, `Float` and `Text` field encodes to a
non-empty byte string, and an `IntegerList` field encodes to a non-empty byte
string whenever its element list is non-empty; the single exception to the
claim is the empty `IntegerList`, which encodes to zero bytes. -/
theorem encode_ne_nil_of_ne_emptyList :
    (∀ i : ℤ, Integer_bytes i ≠ []) ∧
    (∀ q : ℚ, Float_bytes q ≠ []) ∧
    (∀ s : List Char, String_bytes s ≠ []) ∧
    (∀ l : List ℤ, l ≠ [] → IntegerList_bytes l ≠ []) := by
  refine ⟨fun i => ?_, fun q => ?_, fun s => ?_, fun l hl => ?_⟩
  · simp [Integer_bytes, pyFmtIntLine]
  · simp [Float_bytes, pyFmtFloatLine]
  · simp [String_bytes, pyFmtTextLine]
  · cases l with
    | nil => exact absurd rfl hl
    | cons a as => simp [IntegerList_bytes, pyFmtIntLine]

/-- Witness for the amended C8 at a concrete input: the list `[3]` is
non-empty and its `IntegerList` encoding is non-empty. -/
theorem encode_ne_nil_of_ne_emptyList_witness :
    IntegerList_bytes [3] ≠ [] :=
  encode_ne_nil_of_ne_emptyList.2.2.2 [3] (by decide)

/-- C1 counterexample: a run whose module body raises (here: a body that
pushes nothing and raises) delivers a stream with zero sentinels — not
exactly one — and the worker never executes `finish_op`, so the Operation
handle is still set after the thread has died. -/
theorem wrap_op_raising_body_counterexample :
    sentinelCount (traceStream (wrapOpTrace ⟨"CurveTracer", "CT"⟩ [(1, 1)] 0
      (⟨[], Outcome.raises⟩ : ModBody ℚ))) = 0 ∧
    EngAct.clearHandle ∉ wrapOpTrace ⟨"CurveTracer", "CT"⟩ [(1, 1)] 0
      (⟨[], Outcome.raises⟩ : ModBody ℚ) ∧
    (wrap_op ⟨none⟩ ⟨"CurveTracer", "CT"⟩ [(1, 1)] 0
      (⟨[], Outcome.raises⟩ : ModBody ℚ)).2 = ⟨some "CurveTracer"⟩ := by
  refine ⟨rfl, ?_, rfl⟩
  simp [wrapOpTrace]

/-- C1 (amended): for a run started through `run_module` whose module body
returns normally, the delivered stream contains exactly one sentinel, the
sentinel is its last item, and the Operation handle is cleared strictly
before the sentinel is pushed; if the module body raises, however, the stream
contains no sentinel at all and the handle is never cleared (the worker dies
between its last push and `finish_op`). -/
theorem wrap_op_sentinel_exactly_once {α : Type} (m : ModDesc)
    (devs : List (ℤ × ℤ)) (conf : ℕ) (p : List α) :
    (sentinelCount (traceStream (wrapOpTrace m devs conf ⟨p, Outcome.ok⟩)) = 1 ∧
     (traceStream (wrapOpTrace m devs conf ⟨p, Outcome.ok⟩)).getLast? =
       some SinkItem.sentinel ∧
     clearedBeforeSentinel (wrapOpTrace m devs conf ⟨p, Outcome.ok⟩)) ∧
    (sentinelCount (traceStream (wrapOpTrace m devs conf ⟨p, Outcome.raises⟩)) = 0 ∧
     EngAct.clearHandle ∉ wrapOpTrace m devs conf ⟨p, Outcome.raises⟩) := by
  refine ⟨⟨?_, ?_, ?_⟩, ?_, ?_⟩
  · rw [traceStream_wrapOpTrace_ok]
    show sentinelCount (p.map SinkItem.datum ++
      [SinkItem.endMod m.name m.tag, SinkItem.sentinel]) = 1
    rw [sentinelCount_append, sentinelCount_map_datum]
    rfl
  · rw [traceStream_wrapOpTrace_ok]
    rw [show SinkItem.beginMod m.name m.tag devs conf ::
          (p.map SinkItem.datum ++
            [SinkItem.endMod m.name m.tag, SinkItem.sentinel]) =
        (SinkItem.beginMod m.name m.tag devs conf ::
          (p.map SinkItem.datum ++ [SinkItem.endMod m.name m.tag])) ++
          [SinkItem.sentinel] by simp]
    exact List.getLast?_concat _
  · exact ⟨EngAct.push (SinkItem.beginMod m.name m.tag devs conf) ::
      p.map (fun d => EngAct.push (SinkItem.datum d)),
      [EngAct.push (SinkItem.endMod m.name m.tag)], [], by simp [wrapOpTrace]⟩
  · rw [traceStream_wrapOpTrace_raises]
    show sentinelCount (p.map SinkItem.datum) = 0
    exact sentinelCount_map_datum p
  · simp [wrapOpTrace]

/-- C2: a `run_module` call issued while an Operation handle exists raises
`OperationInProgress` carrying the current operation's name and leaves the
engine untouched (no new handle); a run accepted on a free engine whose body
completes normally (its sentinel was therefore emitted, see C1) leaves the
handle cleared, and a subsequent `run_module` call on that state is accepted.
The handle being an `Option` field is the invariant that zero or one
Operation exists at any time. -/
theorem run_module_exclusivity (n : String) (reg : List (String × ModDesc))
    (m m2 : ModDesc) (devs devs2 : List (ℤ × ℤ)) (conf conf2 : ℕ)
    (b b2 : ModBody ℚ) (p : List ℚ) :
    run_module ⟨some n⟩ reg (ModArg.moduleClass m) devs conf b =
      (.error (PyExn.operationInProgress n), ⟨some n⟩) ∧
    (run_module ⟨none⟩ reg (ModArg.moduleClass m) devs conf ⟨p, Outcome.ok⟩).2 =
      ⟨none⟩ ∧
    (run_module (run_module ⟨none⟩ reg (ModArg.moduleClass m) devs conf
        ⟨p, Outcome.ok⟩).2 reg (ModArg.moduleClass m2) devs2 conf2 b2).1 =
      .ok (wrapOpTrace m2 devs2 conf2 b2) :=
  ⟨rfl, rfl, rfl⟩

/-- C9: resolving a module through `run_module` / `_module_from_arg` by a
string tag always raises `NameError` (the `elif` guard evaluates the unbound
name `target`), whatever the registry contains — in particular for tags
present in it — and no engine state is touched; only a class argument that
subclasses `Module` resolves successfully. -/
theorem module_from_arg_string_raises_nameError (reg : List (String × ModDesc))
    (tag : String) (e : Engine) (devs : List (ℤ × ℤ)) (conf : ℕ)
    (body : ModBody ℚ) (m : ModDesc) :
    module_from_arg reg (ModArg.str tag) = .error PyExn.nameError ∧
    run_module e reg (ModArg.str tag) devs conf body = (.error PyExn.nameError, e) ∧
    module_from_arg reg (ModArg.moduleClass m) = .ok m :=
  ⟨rfl, rfl, rfl⟩

/-- C5 (code bug): every `run_sequence` call fails up front — the first
statement of `_wrap_sequence` reads `sequence.sink`, an attribute no
`Sequence` instance has, so `AttributeError` propagates on the caller's
thread before any worker starts and before any event (let alone the claimed
begin/end envelopes and sentinel) is pushed.  Evaluated here at the claim's
input: devices `[D1, D2]` and modules `[M1, M2]`. -/
theorem run_sequence_raises_attributeError :
    run_sequence ⟨none⟩
      ⟨"seq", [(⟨"M1", "m1"⟩, 0), (⟨"M2", "m2"⟩, 1)], [(1, 1), (2, 2)]⟩ =
      (.error PyExn.attributeError, ⟨none⟩) := rfl

/-- C3 counterexample: a tuple whose first field is `0.5` — strictly positive,
so by the claim it should be delivered and the sub-stream should continue —
actually terminates the device sub-stream undelivered, because the code tests
`int(res) <= 0` and `int(0.5) == 0`. -/
theorem deviceReadLoop_half_counterexample :
    deviceReadLoop 1 1 [((1 : ℚ)/2, 1, 1), (-1, 0, 0)] =
      some ([], [(-1, 0, 0)]) ∧ (0 : ℚ) < 1/2 := by
  constructor
  · norm_num [deviceReadLoop, pyIntTrunc]
  · norm_num

/-- C3 (amended): a device sub-stream of the generic triplet runner
terminates exactly when a tuple whose *truncated* first field is ≤ 0
(`int(res) <= 0`, i.e. first field < 1) is read; every tuple read before
that — one whose truncated first field is positive — is delivered to the
sink, and the runner then moves to the next device with the rest of the
inbound stream.  The spec's example `(10.0,1,1e-3), (8.0,1,1e-3), (-1,0,0)`
still yields exactly two delivered records. -/
theorem deviceReadLoop_sentinel_spec (w b : ℤ) (pre : List Triplet) (s : Triplet)
    (rest : List Triplet) (hpre : ∀ t ∈ pre, 0 < pyIntTrunc t.1)
    (hs : pyIntTrunc s.1 ≤ 0) :
    deviceReadLoop w b (pre ++ s :: rest) =
      some (pre.map (fun t => (w, b, t.1, t.2.1, t.2.2)), rest) ∧
    ∀ ds : List (ℤ × ℤ), generic_triplet_runner ((w, b) :: ds) (pre ++ s :: rest) =
      (generic_triplet_runner ds rest).map
        (fun more => pre.map (fun t => (w, b, t.1, t.2.1, t.2.2)) ++ more) := by
  have hloop : deviceReadLoop w b (pre ++ s :: rest) =
      some (pre.map (fun t => (w, b, t.1, t.2.1, t.2.2)), rest) := by
    induction pre with
    | nil =>
        simp only [List.nil_append, List.map_nil, deviceReadLoop]
        rw [if_neg (by simpa using hs)]
    | cons t ts ih =>
        have ht : 0 < pyIntTrunc t.1 := hpre t (List.mem_cons_self t ts)
        have hts : ∀ u ∈ ts, 0 < pyIntTrunc u.1 :=
          fun u hu => hpre u (List.mem_cons_of_mem t hu)
        simp only [List.cons_append, List.map_cons, deviceReadLoop,
          List.append_eq]
        rw [if_pos (by omega), ih hts]
  refine ⟨hloop, fun ds => ?_⟩
  rw [generic_triplet_runner, hloop]
  cases hrec : generic_triplet_runner ds rest <;> simp [hrec]

/-- Witness for the amended C3 at the spec's example input: two delivered
records for device `(1, 1)`, then the next device starts on an empty
remainder. -/
theorem deviceReadLoop_sentinel_spec_witness :
    deviceReadLoop 1 1 [((10 : ℚ), 1, 1/1000), (8, 1, 1/1000), (-1, 0, 0)] =
      some ([(1, 1, 10, 1, 1/1000), (1, 1, 8, 1, 1/1000)], []) :=
  (deviceReadLoop_sentinel_spec 1 1 [((10 : ℚ), 1, 1/1000), (8, 1, 1/1000)]
    (-1, 0, 0) []
    (by
      intro t ht
      simp only [List.mem_cons, List.not_mem_nil, or_false] at ht
      rcases ht with rfl | rfl
      · norm_num [pyIntTrunc]
      · norm_num [pyIntTrunc])
    (by
      show pyIntTrunc (-1 : ℚ) ≤ 0
      rw [pyIntTrunc, if_neg (by norm_num)]
      rw [show (-1 : ℚ) = -(1 : ℚ) from rfl, Int.ceil_neg]
      norm_num)).1

/-- C4 counterexample: a confirmation line that does not parse as an integer
(here `"x"`) makes `initialise` raise `ValueError` — the `int()` failure is
not `serial.SerialException`, so the `except` clause does not convert it to
`ConnectionError` — and the serial port is left open, not closed. -/
theorem initialise_unparseable_counterexample :
    (initialise (LineIn.line ['x'])).outcome = .error PyExn.valueError ∧
    (initialise (LineIn.line ['x'])).outcome ≠ .error PyExn.connectionError ∧
    (initialise (LineIn.line ['x'])).portOpen = true := by
  refine ⟨rfl, fun h => ?_, rfl⟩
  exact PyExn.noConfusion (Except.error.inj h)

/-- C4 (amended): if the confirmation line parses as the integer 1, the
`INIT_ACK` packet is written and `initialise` succeeds; if it parses as any
other integer, `initialise` raises `ConnectionError` and writes no
`INIT_ACK`; if the line cannot be parsed as an integer, `initialise` raises
`ValueError` (not `ConnectionError`), writing no `INIT_ACK`; a transport
failure raises `ConnectionError` with no `INIT_ACK`.  In every failure case
the serial port object remains open — the code has no failure path that
closes it. -/
theorem initialise_spec (s : List Char) (v : ℤ) :
    (initialise LineIn.ioError =
      ⟨[.reset, .INIT], .error PyExn.connectionError, true⟩) ∧
    (pyParseInt s = none →
      initialise (LineIn.line s) =
        ⟨[.reset, .INIT], .error PyExn.valueError, true⟩) ∧
    (pyParseInt s = some 1 →
      initialise (LineIn.line s) =
        ⟨[.reset, .INIT, .INIT_ACK], .ok (), true⟩) ∧
    (pyParseInt s = some v → v ≠ 1 →
      initialise (LineIn.line s) =
        ⟨[.reset, .INIT], .error PyExn.connectionError, true⟩) := by
  refine ⟨rfl, fun h => ?_, fun h => ?_, fun h hv => ?_⟩
  · simp [initialise, h]
  · simp [initialise, h]
  · simp [initialise, h, hv]

/-- Witness for the amended C4 at a concrete input: the confirmation line
`"1\n"` parses as 1, so the handshake writes `INIT_ACK` and succeeds. -/
theorem initialise_spec_witness :
    initialise (LineIn.line ['1', '\n']) =
      ⟨[.reset, .INIT, .INIT_ACK], .ok (), true⟩ :=
  (initialise_spec ['1', '\n'] 0).2.2.1 rfl

/-- C6: `update_Vread` rejects any voltage of magnitude above 12 V with a
`ValueError` and no state change; for an accepted voltage the mode ladder
switches `TIA4P` to `TIA4P_NEG` on a negative value, switches `TIA4P_NEG`
back to `TIA4P` on a positive value, and leaves any other mode untouched; the
stored configuration is updated — to exactly the written voltage and mode —
only when the `SET_VREAD` packet write succeeds, and is untouched when the
write fails. -/
theorem update_Vread_spec (c : ArC1Conf) (val : ℚ) :
    (12 < |val| → ∀ wk, update_Vread c val wk = (some VreadError.valueError, c, [])) ∧
    (|val| ≤ 12 →
      (val < 0 → c.read_mode = READ_MODE.TIA4P →
        nextReadMode c val = READ_MODE.TIA4P_NEG) ∧
      (0 < val → c.read_mode = READ_MODE.TIA4P_NEG →
        nextReadMode c val = READ_MODE.TIA4P) ∧
      (c.read_mode = READ_MODE.CLASSIC ∨ c.read_mode = READ_MODE.TIA →
        nextReadMode c val = c.read_mode) ∧
      update_Vread c val false = (some VreadError.writeError, c, []) ∧
      update_Vread c val true =
        (none, ⟨nextReadMode c val, val⟩, [(val, nextReadMode c val)])) := by
  constructor
  · intro hgt wk
    simp [update_Vread, hgt]
  · intro hle
    have hnot : ¬ 12 < |val| := not_lt.mpr hle
    refine ⟨fun hneg hm => ?_, fun hpos hm => ?_, fun hother => ?_, ?_, ?_⟩
    · simp [nextReadMode, hneg, hm]
    · have : ¬ (val < 0 ∧ c.read_mode = READ_MODE.TIA4P) := by
        rw [hm]; rintro ⟨-, h⟩; cases h
      simp only [nextReadMode, if_neg this]
      rw [if_pos ⟨hpos, hm⟩]
    · have h1 : ¬ (val < 0 ∧ c.read_mode = READ_MODE.TIA4P) := by
        rcases hother with h | h <;> rw [h] <;> rintro ⟨-, hc⟩ <;> cases hc
      have h2 : ¬ (0 < val ∧ c.read_mode = READ_MODE.TIA4P_NEG) := by
        rcases hother with h | h <;> rw [h] <;> rintro ⟨-, hc⟩ <;> cases hc
      simp [nextReadMode, h1, h2]
    · simp [update_Vread, hnot]
    · simp [update_Vread, hnot]

/-- Witness for C6 at concrete inputs: from `(TIA4P, +0.5)`, requesting
`-0.5` switches the mode to `TIA4P_NEG` and a successful write stores the new
voltage and mode. -/
theorem update_Vread_spec_witness :
    nextReadMode ⟨READ_MODE.TIA4P, 1/2⟩ (-(1/2)) = READ_MODE.TIA4P_NEG ∧
    update_Vread ⟨READ_MODE.TIA4P, 1/2⟩ (-(1/2)) true =
      (none, ⟨nextReadMode ⟨READ_MODE.TIA4P, 1/2⟩ (-(1/2)), -(1/2)⟩,
        [(-(1/2), nextReadMode ⟨READ_MODE.TIA4P, 1/2⟩ (-(1/2)))]) :=
  ⟨((update_Vread_spec ⟨READ_MODE.TIA4P, 1/2⟩ (-(1/2))).2
      (by rw [abs_neg, abs_of_nonneg (by norm_num : (0:ℚ) ≤ 1/2)]; norm_num)).1
      (by norm_num) rfl,
    ((update_Vread_spec ⟨READ_MODE.TIA4P, 1/2⟩ (-(1/2))).2
      (by rw [abs_neg, abs_of_nonneg (by norm_num : (0:ℚ) ≤ 1/2)]; norm_num)).2.2.2.2⟩

/-- C10: `RampGenerator.run` writes through its alias of the class-level
`FormFinder.default_config` dictionary, so after any ramp run the process
state has `Rthr = 1.0` and `PWmin = PWmax =` the ramp's `PW`; a later
`FormFinder` run that falls back to its default configuration resolves that
same mutated object, which (already for the ramp generator's own default
configuration) differs from the documented `FormFinder` defaults. -/
theorem rampGenerator_mutates_formFinder_default (st : ProcState) (conf : RMPConf) :
    (RampGenerator_run st conf).1.ffDefault.Rthr = 1 ∧
    (RampGenerator_run st conf).1.ffDefault.PWmin = conf.PW ∧
    (RampGenerator_run st conf).1.ffDefault.PWmax = conf.PW ∧
    FormFinder_fallback_config (RampGenerator_run st conf).1 =
      (RampGenerator_run st conf).1.ffDefault ∧
    FormFinder_fallback_config
        (RampGenerator_run initProcState RampGenerator_default_config).1 ≠
      FormFinder_default_config_init := by
  refine ⟨rfl, rfl, rfl, rfl, fun h => ?_⟩
  have := congrArg FFConf.Rthr h
  simp [RampGenerator_run, rampGeneratorAssign, initProcState,
    RampGenerator_default_config, FormFinder_fallback_config,
    FormFinder_default_config_init] at this

end LibArc1
